import Mathlib

/-!
Shallow embedding of `integrate_peaks.py` (class `Peaks`, riana v0.1.0).

Python floats are modelled as exact rationals (`ℚ`); Python exceptions as
an explicit error type threaded through `Except`.  Dictionaries whose
iteration order matters (`rt_idx`, iterated in `get_isotopes_from_amrt`)
are association lists; dictionaries only ever read pointwise (`msdata`,
`mslvl_idx`) are total functions, since every scan id reaching them is an
indexed scan.
-/

namespace IntegratePeaks

/-- Kinds of Python exceptions the embedded code can raise. -/
inductive PyErr where
  | typeError
  | nameError
  | zeroDivisionError
  | assertionError
  | valueError
  | keyError
  deriving DecidableEq, Repr

/-- `LookupError` subclasses among the modelled exception kinds: in Python
these are `KeyError` and `IndexError`; of the kinds that occur here only
`keyError` qualifies.  `TypeError`, `NameError`, … are not `LookupError`s. -/
def PyErr.isLookupErrorKind : PyErr → Bool
  | .keyError => true
  | _ => false

/-- One entry of `intensity_over_time` (line 169 of the source):
`[nearbyScan_rt, iso, matching_int, mz]`. -/
structure Sample where
  rt : ℚ
  iso : ℤ
  intensity : ℚ
  mz : ℚ
  deriving DecidableEq, Repr

/-- One row of the identification table `self.id`, with the columns read by
`get_isotopes_from_amrt_wrapper` (lines 109-122). -/
structure IdRow where
  peptide_mass : ℚ
  scan : Nat
  charge : ℚ
  pep_id : Nat
  deriving DecidableEq, Repr

/-- The state of a `Peaks` object (lines 15-33): the scan data and the
configuration fields set before a batch run. -/
structure Peaks where
  msdata : Nat → List (ℚ × ℚ)
  rt_idx : List (Nat × ℚ)
  mslvl_idx : Nat → Nat
  id : List IdRow
  iso_to_do : List ℤ
  rt_tolerance : ℚ := 30
  mass_tolerance : ℚ := 100e-6

/-- Python's built-in `abs` on a rational value. -/
def rabs (x : ℚ) : ℚ := if x < 0 then -x else x

/-- Line 139: `proton = 1.007825`. -/
def proton : ℚ := 1.007825

/-- Line 145: `peptide_prec = (peptide_am + (z * proton)) / z`. -/
def peptide_prec (peptide_am z : ℚ) : ℚ :=
  (peptide_am + (z * proton)) / z

/-- Line 161: `peptide_prec_iso_am = peptide_prec + (iso * proton / z)`. -/
def peptide_prec_iso_am (prec : ℚ) (iso : ℤ) (z : ℚ) : ℚ :=
  prec + ((iso : ℚ) * proton / z)

/-- Line 163: `upper = peptide_prec_iso_am + (peptide_prec_iso_am * (mass_tolerance/2))`. -/
def upper (mz tol : ℚ) : ℚ :=
  mz + (mz * (tol / 2))

/-- Line 165: `lower = peptide_prec_iso_am - (peptide_prec_iso_am * (mass_tolerance/2))`. -/
def lower (mz tol : ℚ) : ℚ :=
  mz - (mz * (tol / 2))

/-- Line 167: `matching_int = sum([I for mz_value, I in peaks if upper > mz_value > lower])`. -/
def matching_int (peaks : List (ℚ × ℚ)) (mz tol : ℚ) : ℚ :=
  ((peaks.filter (fun p => decide (upper mz tol > p.1 ∧ p.1 > lower mz tol))).map
    (fun p => p.2)).sum

/-- Lines 150-151: `nearby_scans = [[i, rt] for i, rt in self.rt_idx.items()
if abs(rt - peptide_rt) <= self.rt_tolerance and self.mslvl_idx[i] == 1]`. -/
def nearby_scans (self : Peaks) (peptide_rt : ℚ) : List (Nat × ℚ) :=
  self.rt_idx.filter
    (fun p => decide (rabs (p.2 - peptide_rt) ≤ self.rt_tolerance ∧ self.mslvl_idx p.1 = 1))

/-- Lines 127-171, `get_isotopes_from_amrt(peptide_am, peptide_scan, z)`.
Control flow of the source, in order:
* line 142: `peptide_rt = self.rt_idx.get(peptide_scan)` — a missing key
  silently yields `None` (no exception here);
* line 145: `(peptide_am + (z * proton)) / z` — raises `ZeroDivisionError`
  when `z == 0`;
* lines 150-151: the nearby-scan comprehension evaluates
  `abs(rt - peptide_rt)`; when `peptide_rt` is `None` this raises
  `TypeError` on the first item, so only an empty `rt_idx` escapes it;
* lines 154-169: the nested loop body computes `peptide_prec_iso_am`,
  `upper`, `lower` and `matching_int` (embedded above), but the append on
  line 169 reads the undefined name `peptide_prec_isotopomer_am` (the
  variable defined on line 161 is `peptide_prec_iso_am`), raising
  `NameError` on the first (scan, iso) iteration.  Hence a non-empty
  nearby-scan set together with a non-empty `iso_to_do` never returns;
  the loop only completes (returning `[]`) when it has zero iterations. -/
def get_isotopes_from_amrt (self : Peaks) (peptide_am : ℚ) (peptide_scan : Nat) (z : ℚ) :
    Except PyErr (List Sample) :=
  let peptide_rt? := self.rt_idx.lookup peptide_scan
  if z = 0 then .error .zeroDivisionError
  else
    match peptide_rt? with
    | none => if self.rt_idx.isEmpty then .ok [] else .error .typeError
    | some peptide_rt =>
      if (nearby_scans self peptide_rt).isEmpty || self.iso_to_do.isEmpty then .ok []
      else .error .nameError

/-- Pairwise trapezoidal rule, `scipy.integrate.trapz(y, x)` on two
equal-length columns: `sum((x[i+1]-x[i]) * (y[i]+y[i+1]) / 2)`. -/
def trapz (y x : List ℚ) : ℚ :=
  match y, x with
  | y1 :: y2 :: ys, x1 :: x2 :: xs => (x2 - x1) * (y1 + y2) / 2 + trapz (y2 :: ys) (x2 :: xs)
  | _, _ => 0

/-- Body of the loop in lines 182-196: the integrated area of one
isotopomer `j`; zero when its profile is empty, otherwise the trapezoidal
area floored at zero (`iso_area = max(iso_area, 0)`, line 191). -/
def iso_area (intensity_over_time : List Sample) (j : ℤ) : ℚ :=
  let isotopomer_profile := intensity_over_time.filter (fun s => decide (s.iso = j))
  if isotopomer_profile.isEmpty then 0
  else max (trapz (isotopomer_profile.map Sample.intensity) (isotopomer_profile.map Sample.rt)) 0

/-- Lines 173-198, `integrate_isotope_intensity()`: one area per entry of
`iso_to_do`, in `iso_to_do` order. -/
def integrate_isotope_intensity (iso_to_do : List ℤ) (intensity_over_time : List Sample) :
    List ℚ :=
  iso_to_do.map (iso_area intensity_over_time)

/-- Lines 100-124, `get_isotopes_from_amrt_wrapper(index)`: reads the row
(`self.id.loc[index, ...]`, raising a lookup error for an out-of-range
index), traces, then integrates; an exception in the trace propagates. -/
def get_isotopes_from_amrt_wrapper (self : Peaks) (index : Nat) :
    Except PyErr (Nat × Nat × List ℚ) :=
  match self.id[index]? with
  | none => .error .keyError
  | some row =>
    match get_isotopes_from_amrt self row.peptide_mass row.scan row.charge with
    | .error e => .error e
    | .ok intensity_over_time =>
      .ok (index, row.pep_id, integrate_isotope_intensity self.iso_to_do intensity_over_time)

/-- `list(p.imap(f, xs))` (line 93): results are collected in input order
and the first exception raised by a worker re-raises in the parent,
aborting the collection. -/
def imap_collect {α : Type} (f : Nat → Except PyErr α) : List Nat → Except PyErr (List α)
  | [] => .ok []
  | i :: rest =>
    match f i with
    | .error e => .error e
    | .ok y =>
      match imap_collect f rest with
      | .error e => .error e
      | .ok ys => .ok (y :: ys)

/-- Lines 73-98, `get_isotopes_from_amrt_multiwrapper(num_thread, chunk_size)`,
with `cpu_count()` passed explicitly.  In source order:
* line 84: `assert num_thread >= cpu_count()-1` (note the direction);
* line 86: `assert chunk_size > 0`;
* line 96: `total=max(loop_count)` with `loop_count = range(len(self.id))` —
  `max` of an empty range raises `ValueError` when the table is empty;
* line 93: results of `p.imap(self.get_isotopes_from_amrt_wrapper, loop_count)`
  are collected in order.  (Line 90's `chunk_size = max(chunk_size, 250)`
  only affects scheduling granularity, not the collected results.) -/
def get_isotopes_from_amrt_multiwrapper (self : Peaks) (num_thread cpu_count chunk_size : Nat) :
    Except PyErr (List (Nat × Nat × List ℚ)) :=
  if num_thread ≥ cpu_count - 1 then
    if chunk_size > 0 then
      if self.id.length = 0 then .error .valueError
      else imap_collect (get_isotopes_from_amrt_wrapper self) (List.range self.id.length)
    else .error .assertionError
  else .error .assertionError

/-! Concrete instances used to evaluate the embedded code on specific inputs. -/

/-- A `Peaks` state with one indexed MS1 scan at retention time 100 holding a
single peak, one isotopologue requested, and one identification row whose
elution scan is that scan. -/
def exPeaks : Peaks where
  msdata := fun _ => [(501.008, 500)]
  rt_idx := [(1, 100)]
  mslvl_idx := fun _ => 1
  id := [⟨1000, 1, 2, 7⟩]
  iso_to_do := [0]

/-- A `Peaks` state whose rows 0 and 2 reference the indexed scan 1 (MS level
2, so their traces are empty) and whose row 1 references scan 99, which has no
entry in `rt_idx`. -/
def ctxMissing : Peaks where
  msdata := fun _ => []
  rt_idx := [(1, 100)]
  mslvl_idx := fun _ => 2
  id := [⟨1000, 1, 2, 11⟩, ⟨1000, 99, 2, 12⟩, ⟨1000, 1, 2, 13⟩]
  iso_to_do := [0]

/-- A `Peaks` state whose row 0 has charge 0 and whose row 1 is well-formed. -/
def ctxZeroCharge : Peaks where
  msdata := fun _ => []
  rt_idx := [(1, 100)]
  mslvl_idx := fun _ => 2
  id := [⟨1000, 1, 0, 21⟩, ⟨1000, 1, 2, 22⟩]
  iso_to_do := [0]

/-- A `Peaks` state with a single well-formed identification row whose trace is
empty (its scan has MS level 2, so no nearby MS1 scans exist). -/
def ctxOneRow : Peaks where
  msdata := fun _ => []
  rt_idx := [(1, 100)]
  mslvl_idx := fun _ => 2
  id := [⟨1000, 1, 2, 7⟩]
  iso_to_do := [0]

/-- A `Peaks` state with an empty identification table. -/
def ctxEmptyId : Peaks where
  msdata := fun _ => []
  rt_idx := [(1, 100)]
  mslvl_idx := fun _ => 1
  id := []
  iso_to_do := [0]

/-- Scan index for window-boundary instances: scans at retention times 100,
130 (difference exactly 30 from 100) and 131, all MS1. -/
def ctxWindow : Peaks where
  msdata := fun _ => []
  rt_idx := [(1, 100), (2, 130), (3, 131)]
  mslvl_idx := fun _ => 1
  id := []
  iso_to_do := [0]

/-- A trace whose two samples for isotopologue 0 are in descending retention
time order, so the raw trapezoidal area is negative: (0 - 1)·(10+10)/2 = -10. -/
def trNeg : List Sample :=
  [⟨1, 0, 10, 500⟩, ⟨0, 0, 10, 500⟩]

/-! Helper lemmas shared by several theorems below. -/

/-- The embedded Python `abs` agrees with the mathematical absolute value. -/
theorem rabs_eq_abs (x : ℚ) : rabs x = |x| := by
  unfold rabs
  rcases lt_or_le x 0 with h | h
  · rw [if_pos h, abs_of_neg h]
  · rw [if_neg (not_lt.mpr h), abs_of_nonneg h]

/-- If collecting the mapped results succeeds, every listed input succeeded. -/
theorem imap_collect_ok {α : Type} (f : Nat → Except PyErr α) :
    ∀ (xs : List Nat) (ys : List α), imap_collect f xs = .ok ys →
      ∀ x ∈ xs, ∃ y, f x = .ok y := by
  intro xs
  induction xs with
  | nil => intro ys _ x hx; cases hx
  | cons a rest ih =>
    intro ys h x hx
    unfold imap_collect at h
    cases hfa : f a with
    | error e => rw [hfa] at h; exact absurd h (by simp)
    | ok y =>
      rw [hfa] at h
      cases hr : imap_collect f rest with
      | error e => rw [hr] at h; exact absurd h (by simp)
      | ok ys2 =>
        rcases List.mem_cons.mp hx with rfl | hx2
        · exact ⟨y, hfa⟩
        · exact ih ys2 hr x hx2

/-- A row whose trace raises re-raises the same exception from the wrapper. -/
theorem wrapper_error_of_trace_error (self : Peaks) (i : Nat) (row : IdRow) (e : PyErr)
    (hrow : self.id[i]? = some row)
    (htr : get_isotopes_from_amrt self row.peptide_mass row.scan row.charge = .error e) :
    get_isotopes_from_amrt_wrapper self i = .error e := by
  unfold get_isotopes_from_amrt_wrapper
  rw [hrow]
  dsimp only
  rw [htr]

/-- A row index whose wrapper raises prevents the batch from returning results. -/
theorem multiwrapper_no_ok_of_row_error (self : Peaks) (nt cc cs : Nat) (i : Nat) (e : PyErr)
    (hi : i < self.id.length)
    (hw : get_isotopes_from_amrt_wrapper self i = .error e) :
    ¬ ∃ ys, get_isotopes_from_amrt_multiwrapper self nt cc cs = .ok ys := by
  rintro ⟨ys, hys⟩
  unfold get_isotopes_from_amrt_multiwrapper at hys
  by_cases h1 : nt ≥ cc - 1
  · rw [if_pos h1] at hys
    by_cases h2 : cs > 0
    · rw [if_pos h2] at hys
      by_cases h3 : self.id.length = 0
      · rw [if_pos h3] at hys
        exact Except.noConfusion hys
      · rw [if_neg h3] at hys
        obtain ⟨y, hy⟩ :=
          imap_collect_ok (get_isotopes_from_amrt_wrapper self) (List.range self.id.length)
            ys hys i (List.mem_range.mpr hi)
        rw [hw] at hy
        exact Except.noConfusion hy
    · rw [if_neg h2] at hys
      exact Except.noConfusion hys
  · rw [if_neg h1] at hys
    exact Except.noConfusion hys

/-- Entry `i` of the integrated vector is the area computed for `iso_to_do[i]`. -/
theorem integrate_getD (iso_to_do : List ℤ) (tr : List Sample) :
    ∀ i, i < iso_to_do.length →
      (integrate_isotope_intensity iso_to_do tr).getD i 0 = iso_area tr (iso_to_do.getD i 0) := by
  induction iso_to_do with
  | nil => intro i hi; cases hi
  | cons j rest ih =>
    intro i hi
    cases i with
    | zero => rfl
    | succ n =>
      have hn : n < rest.length := by
        simpa using Nat.lt_of_succ_lt_succ hi
      simpa [integrate_isotope_intensity] using ih n hn

/-- Integrating an empty trace yields the all-zero vector. -/
theorem integrate_nil_eq_replicate (iso_to_do : List ℤ) :
    integrate_isotope_intensity iso_to_do [] = List.replicate iso_to_do.length 0 := by
  induction iso_to_do with
  | nil => rfl
  | cons j rest ih =>
    show iso_area [] j :: integrate_isotope_intensity rest [] =
      0 :: List.replicate rest.length 0
    rw [ih]
    rfl

/-! Claim theorems. -/

/-- Claim C1.  The claim says `get_isotopes_from_amrt` emits one sample per
(nearby MS1 scan, isotopologue) pair, so here — one nearby scan, one
requested isotopologue — the trace should have length 1.  Instead line 169
reads the undefined name `peptide_prec_isotopomer_am`, so the very first
append raises `NameError` and no trace is ever returned. -/
theorem get_isotopes_from_amrt_nameError :
    (nearby_scans exPeaks 100).length * exPeaks.iso_to_do.length = 1 ∧
    get_isotopes_from_amrt exPeaks 1000 1 2 = .error .nameError := by
  constructor
  · norm_num [nearby_scans, exPeaks, rabs]
  · norm_num [get_isotopes_from_amrt, nearby_scans, exPeaks, rabs]

/-- Claim C3.  The precondition check on line 84 is reversed: it accepts a
worker count of 10 with available parallelism 4 (which the claim says must be
rejected) and rejects a worker count of 1 (which the claim says must pass,
1 ≤ 4 − 1), aborting with the `AssertionError` before any batch work. -/
theorem multiwrapper_assert_reversed :
    get_isotopes_from_amrt_multiwrapper ctxOneRow 1 4 50 = .error .assertionError ∧
    get_isotopes_from_amrt_multiwrapper ctxOneRow 10 4 50 = .ok [(0, 7, [0])] := by
  constructor
  · rfl
  · norm_num [get_isotopes_from_amrt_multiwrapper, get_isotopes_from_amrt_wrapper,
      get_isotopes_from_amrt, nearby_scans, ctxOneRow, rabs, imap_collect, List.range_succ,
      integrate_isotope_intensity, iso_area]

/-- Claim C5: the integrated-intensity vector has one entry per element of
`iso_to_do`, in `iso_to_do` order; an isotopologue with no samples in the
trace integrates to 0; the empty trace yields the all-zero vector. -/
theorem integrate_isotope_intensity_spec (iso_to_do : List ℤ) (tr : List Sample) (i : Nat) :
    (integrate_isotope_intensity iso_to_do tr).length = iso_to_do.length ∧
    (i < iso_to_do.length →
      (integrate_isotope_intensity iso_to_do tr).getD i 0 = iso_area tr (iso_to_do.getD i 0)) ∧
    (i < iso_to_do.length →
      tr.filter (fun s => decide (s.iso = iso_to_do.getD i 0)) = [] →
      (integrate_isotope_intensity iso_to_do tr).getD i 0 = 0) ∧
    integrate_isotope_intensity iso_to_do [] = List.replicate iso_to_do.length 0 := by
  refine ⟨by simp [integrate_isotope_intensity], integrate_getD iso_to_do tr i, ?_,
    integrate_nil_eq_replicate iso_to_do⟩
  intro hi hfil
  rw [integrate_getD iso_to_do tr i hi]
  simp only [iso_area]
  rw [hfil]
  rfl

/-- Witness for C5 at `iso_to_do = [0, 1]` and the empty trace. -/
theorem integrate_isotope_intensity_spec_witness :
    0 < ([0, 1] : List ℤ).length ∧
    (integrate_isotope_intensity [0, 1] []).getD 0 0 = 0 :=
  ⟨by norm_num, (integrate_isotope_intensity_spec [0, 1] [] 0).2.2.1 (by norm_num) rfl⟩

/-- Claim C6: every entry of the integrated-intensity vector is nonnegative —
an empty profile integrates to 0 and a nonempty one to an area floored at 0. -/
theorem integrate_isotope_intensity_nonneg (iso_to_do : List ℤ) (tr : List Sample) (x : ℚ)
    (hx : x ∈ integrate_isotope_intensity iso_to_do tr) : 0 ≤ x := by
  obtain ⟨j, _, rfl⟩ := List.mem_map.mp hx
  simp only [iso_area]
  split
  · exact le_refl 0
  · exact le_max_right _ _

/-- Witness for C6 on a trace whose raw trapezoidal area is −10: the
returned entry is the clamped value 0, which is nonnegative. -/
theorem integrate_isotope_intensity_nonneg_witness :
    (0 : ℚ) ∈ integrate_isotope_intensity [0] trNeg ∧ (0 : ℚ) ≤ 0 :=
  ⟨by norm_num [integrate_isotope_intensity, iso_area, trNeg, trapz],
    integrate_isotope_intensity_nonneg [0] trNeg 0
      (by norm_num [integrate_isotope_intensity, iso_area, trNeg, trapz])⟩

/-- Claim C9: the precursor m/z is `(peptide_mass + charge · proton) / charge`
and the isotopologue m/z is `precursor + iso · proton / charge`, with
`proton = 1.007825`; at charge 2 and mass 1000 the precursor m/z is exactly
501.007825. -/
theorem precursor_mz_formula :
    proton = 1.007825 ∧
    (∀ peptide_am z : ℚ, peptide_prec peptide_am z = (peptide_am + z * proton) / z) ∧
    (∀ (prec : ℚ) (iso : ℤ) (z : ℚ),
      peptide_prec_iso_am prec iso z = prec + (iso : ℚ) * proton / z) ∧
    peptide_prec 1000 2 = 501.007825 :=
  ⟨rfl, fun _ _ => rfl, fun _ _ _ => rfl, by norm_num [peptide_prec, proton]⟩

/-- Claim C10: with the (reversed) worker-count assertion and the chunk-size
assertion both passing, an empty identification table makes the batch raise
`ValueError` — `max(range(0))` on line 96 — instead of returning `[]`. -/
theorem multiwrapper_empty_table_valueError (self : Peaks) (nt cc cs : Nat)
    (hid : self.id = []) (h1 : nt ≥ cc - 1) (h2 : cs > 0) :
    get_isotopes_from_amrt_multiwrapper self nt cc cs = .error .valueError := by
  unfold get_isotopes_from_amrt_multiwrapper
  rw [if_pos h1, if_pos h2, hid]
  rfl

/-- Witness for C10: a concrete empty-table state with passing checks. -/
theorem multiwrapper_empty_table_witness :
    get_isotopes_from_amrt_multiwrapper ctxEmptyId 3 4 50 = .error .valueError :=
  multiwrapper_empty_table_valueError ctxEmptyId 3 4 50 rfl (by norm_num) (by norm_num)

/-- Counterexample to C2 as stated: a row whose scan (99) is not in the scan
index fails with `TypeError` (the `None` returned by `rt_idx.get` reaches the
subtraction on line 151), which is not a `LookupError` kind, and the whole
batch — rows 0 and 2 are well-formed — aborts with that same exception
instead of producing their results. -/
theorem missing_rt_counterexample :
    get_isotopes_from_amrt ctxMissing 1000 99 2 = .error .typeError ∧
    PyErr.isLookupErrorKind .typeError = false ∧
    get_isotopes_from_amrt_multiwrapper ctxMissing 4 4 50 = .error .typeError := by
  refine ⟨rfl, rfl, ?_⟩
  norm_num [get_isotopes_from_amrt_multiwrapper, get_isotopes_from_amrt_wrapper,
    get_isotopes_from_amrt, nearby_scans, ctxMissing, rabs, imap_collect, List.range_succ,
    List.lookup]
  rfl

/-- Claim C2, amended: a row whose scan has no indexed retention time fails
with a `TypeError` (not a `LookupError` kind) provided the scan index is
nonempty and the charge is nonzero, and the failure is not isolated to the
row: the batch returns no result list at all. -/
theorem missing_rt_gives_typeError (self : Peaks) (i : Nat) (row : IdRow)
    (hrow : self.id[i]? = some row) (hz : ¬ row.charge = 0)
    (habs : self.rt_idx.lookup row.scan = none) (hne : ¬ self.rt_idx.isEmpty) :
    get_isotopes_from_amrt self row.peptide_mass row.scan row.charge = .error .typeError ∧
    PyErr.isLookupErrorKind .typeError = false ∧
    ∀ nt cc cs, ¬ ∃ ys, get_isotopes_from_amrt_multiwrapper self nt cc cs = .ok ys := by
  have htr : get_isotopes_from_amrt self row.peptide_mass row.scan row.charge =
      .error .typeError := by
    unfold get_isotopes_from_amrt
    rw [if_neg hz, habs]
    dsimp only
    rw [if_neg hne]
  have hi : i < self.id.length := by
    rcases List.getElem?_eq_some_iff.mp hrow with ⟨h, _⟩
    exact h
  refine ⟨htr, rfl, fun nt cc cs => ?_⟩
  exact multiwrapper_no_ok_of_row_error self nt cc cs i .typeError hi
    (wrapper_error_of_trace_error self i row .typeError hrow htr)

/-- Witness for the amended C2 at the concrete state `ctxMissing`, row 1. -/
theorem missing_rt_gives_typeError_witness :
    get_isotopes_from_amrt ctxMissing 1000 99 2 = .error .typeError :=
  (missing_rt_gives_typeError ctxMissing 1 ⟨1000, 99, 2, 12⟩ (by rfl) (by norm_num) rfl
    (by decide)).1

/-- Counterexample to C4 as stated: a batch whose row 0 has charge 0 (row 1 is
well-formed) aborts entirely with the `ZeroDivisionError` raised by the
division on line 145, so the failure is not confined to that row. -/
theorem zero_charge_counterexample :
    get_isotopes_from_amrt ctxZeroCharge 1000 1 0 = .error .zeroDivisionError ∧
    get_isotopes_from_amrt_multiwrapper ctxZeroCharge 4 4 50 = .error .zeroDivisionError := by
  constructor
  · rfl
  · norm_num [get_isotopes_from_amrt_multiwrapper, get_isotopes_from_amrt_wrapper,
      get_isotopes_from_amrt, ctxZeroCharge, imap_collect, List.range_succ]

/-- Claim C4, amended: for a row with charge 0 the division on line 145 is
executed and raises `ZeroDivisionError`; the failure is not fatal for that
row only — a batch containing such a row yields no result list at all. -/
theorem zero_charge_zeroDivisionError (self : Peaks) (i : Nat) (row : IdRow)
    (hrow : self.id[i]? = some row) (hz : row.charge = 0) :
    get_isotopes_from_amrt self row.peptide_mass row.scan row.charge =
      .error .zeroDivisionError ∧
    ∀ nt cc cs, ¬ ∃ ys, get_isotopes_from_amrt_multiwrapper self nt cc cs = .ok ys := by
  have htr : get_isotopes_from_amrt self row.peptide_mass row.scan row.charge =
      .error .zeroDivisionError := by
    unfold get_isotopes_from_amrt
    rw [hz, if_pos rfl]
  have hi : i < self.id.length := by
    rcases List.getElem?_eq_some_iff.mp hrow with ⟨h, _⟩
    exact h
  refine ⟨htr, fun nt cc cs => ?_⟩
  exact multiwrapper_no_ok_of_row_error self nt cc cs i .zeroDivisionError hi
    (wrapper_error_of_trace_error self i row .zeroDivisionError hrow htr)

/-- Witness for the amended C4 at the concrete state `ctxZeroCharge`, row 0. -/
theorem zero_charge_zeroDivisionError_witness :
    get_isotopes_from_amrt ctxZeroCharge 1000 1 0 = .error .zeroDivisionError :=
  (zero_charge_zeroDivisionError ctxZeroCharge 0 ⟨1000, 1, 0, 21⟩ (by rfl) rfl).1

/-- Claim C7: the matched sum over a peak list equals the sum of intensities
of exactly the peaks strictly inside the open interval
`(mz·(1 − tol/2), mz·(1 + tol/2))`; a peak sitting exactly on the upper or
the lower bound contributes nothing. -/
theorem matching_int_open_interval (peaks : List (ℚ × ℚ)) (mz tol I : ℚ) :
    matching_int ((upper mz tol, I) :: peaks) mz tol = matching_int peaks mz tol ∧
    matching_int ((lower mz tol, I) :: peaks) mz tol = matching_int peaks mz tol ∧
    matching_int peaks mz tol =
      ((peaks.filter (fun p => decide (mz * (1 - tol / 2) < p.1 ∧ p.1 < mz * (1 + tol / 2)))).map
        (fun p => p.2)).sum := by
  have hu : upper mz tol = mz * (1 + tol / 2) := by unfold upper; ring
  have hl : lower mz tol = mz * (1 - tol / 2) := by unfold lower; ring
  have key : ∀ q : ℚ, (upper mz tol > q ∧ q > lower mz tol) ↔
      (mz * (1 - tol / 2) < q ∧ q < mz * (1 + tol / 2)) := by
    intro q
    rw [hu, hl]
    constructor
    · intro h
      exact ⟨h.2, h.1⟩
    · intro h
      exact ⟨h.2, h.1⟩
  refine ⟨?_, ?_, ?_⟩
  · simp [matching_int, List.filter_cons, lt_self_iff_false]
  · simp [matching_int, List.filter_cons, lt_self_iff_false]
  · unfold matching_int
    rw [List.filter_congr (fun x _ => decide_eq_decide.mpr (key x.1))]

/-- Claim C8: membership in the nearby-scan list is exactly — MS level 1 and
retention-time difference at most `rt_tolerance`, the boundary included; any
scan strictly farther than `rt_tolerance` is excluded. -/
theorem nearby_scans_spec (self : Peaks) (peptide_rt : ℚ) (s : Nat × ℚ) :
    (s ∈ self.rt_idx → self.mslvl_idx s.1 = 1 → |s.2 - peptide_rt| ≤ self.rt_tolerance →
      s ∈ nearby_scans self peptide_rt) ∧
    (|s.2 - peptide_rt| > self.rt_tolerance → s ∉ nearby_scans self peptide_rt) ∧
    (s ∈ nearby_scans self peptide_rt →
      s ∈ self.rt_idx ∧ self.mslvl_idx s.1 = 1 ∧ |s.2 - peptide_rt| ≤ self.rt_tolerance) := by
  have hmem : s ∈ nearby_scans self peptide_rt ↔
      s ∈ self.rt_idx ∧ (|s.2 - peptide_rt| ≤ self.rt_tolerance ∧ self.mslvl_idx s.1 = 1) := by
    unfold nearby_scans
    rw [List.mem_filter]
    simp [rabs_eq_abs]
  refine ⟨fun h1 h2 h3 => hmem.mpr ⟨h1, h3, h2⟩, fun hgt hin => ?_, fun hin => ?_⟩
  · exact absurd (hmem.mp hin).2.1 (not_le.mpr hgt)
  · obtain ⟨a, b, c⟩ := hmem.mp hin
    exact ⟨a, c, b⟩

/-- Witness for C8: the scan at retention time 130 sits exactly at the
boundary (difference 30 = `rt_tolerance`) and is included. -/
theorem nearby_scans_spec_witness :
    ((2 : Nat), (130 : ℚ)) ∈ nearby_scans ctxWindow 100 :=
  (nearby_scans_spec ctxWindow 100 (2, 130)).1 (by norm_num [ctxWindow]) rfl
    (by norm_num [ctxWindow, abs_le])

end IntegratePeaks
